import Mathlib

/-!
Verification of the Workflow Orchestration Engine of the app_builder
repository (src/agents/agent_manager.py and src/main.py), as a shallow
embedding in Lean 4.

File-system facts (os.path.exists, os.path.isdir, reading a file) are
modelled by a record of oracles, and worker executions by a trace oracle
indexed by the number of invocations made so far.  A raw read result of
none models the underlying open/read raising an exception; read_file in
utils/file_ops.py converts any such exception into the empty string.
-/

namespace AppBuilder

/-- Oracle view of the process working directory: os.path.exists,
os.path.isdir, and the raw result of opening and reading a file
(none models the read raising an exception). -/
structure FS where
  pathExists : String → Bool
  isDir : String → Bool
  readFile : String → Option String

/-- utils/file_ops.py read_file: returns the file content, and returns the
empty string when the underlying read fails (the except branch). -/
def read_file (fs : FS) (filepath : String) : String :=
  match fs.readFile filepath with
  | some content => content
  | none => ""

/-- The context dict built by MultiAgentBuilder._get_project_context and
consumed by AgentManager.decide_next_agent.  Optional fields model keys
that may be absent: language_config is added to the dict only when set,
and decide_next_agent does context.get with defaults for the others. -/
structure ProjectContext where
  project_name : String := ""
  project_path : Option String := none
  goal : String := ""
  last_action : Option String := none
  loop_counter : Nat := 0
  completed_steps : List String := []
  language_config : Option Unit := none

/-- The dict returned by AgentManager.decide_next_agent. -/
structure Decision where
  next_agent : String
  reasoning : String
deriving Repr, DecidableEq

/-- AgentManager._check_file_exists: empty project_path short-circuits to
False, otherwise os.path.exists(filename) in the current directory. -/
def check_file_exists (project_path filename : String) (fs : FS) : Bool :=
  if project_path == "" then false
  else fs.pathExists filename

/-- AgentManager._check_git_initialized: empty project_path short-circuits
to False, otherwise os.path.exists(".git") and os.path.isdir(".git"). -/
def check_git_initialized (project_path : String) (fs : FS) : Bool :=
  if project_path == "" then false
  else fs.pathExists ".git" && fs.isDir ".git"

/-- The failure_keywords list of AgentManager._tests_failed. -/
def failure_keywords : List String :=
  ["FAIL", "FAILED", "Error", "ERROR", "Exception"]

/-- Whether the needle matches the haystack position by position at its
head (helper for the Python substring operator). -/
def leadMatch : List Char → List Char → Bool
  | [], _ => true
  | _ :: _, [] => false
  | a :: as, b :: bs => a == b && leadMatch as bs

/-- Whether the needle occurs contiguously anywhere in the haystack
(helper for the Python substring operator). -/
def subScan : List Char → List Char → Bool
  | needle, [] => needle.isEmpty
  | needle, c :: rest => leadMatch needle (c :: rest) || subScan needle rest

/-- The Python expression needle in haystack on strings: case-sensitive
contiguous substring containment. -/
def pyIn (needle haystack : String) : Bool :=
  subScan needle.toList haystack.toList

/-- AgentManager._tests_failed: False when TEST_REPORT.md is absent
(or project_path is empty); otherwise a keyword scan of the report text.
Its own except branch returns False, and read_file already converts a
failed read into the empty string, which matches no keyword. -/
def tests_failed (project_path : String) (fs : FS) : Bool :=
  if !check_file_exists project_path "TEST_REPORT.md" fs then false
  else
    let report_content := read_file fs "TEST_REPORT.md"
    failure_keywords.any (fun keyword => pyIn keyword report_content)

/-- The anti-loop test of decide_next_agent, line 90 of agent_manager.py:
last_action truthy (a non-empty string), equal to next_agent, and
next_agent is not FINISHED. -/
def antiLoop (last_action : Option String) (next_agent : String) : Bool :=
  match last_action with
  | none => false
  | some s => !(s == "") && (next_agent == s) && !(next_agent == "FINISHED")

/-- The ordered rule table of AgentManager.decide_next_agent, lines 33-87:
the if/elif chain that selects next_agent before the anti-loop guard and
the reasoning lookup are applied. -/
def ruleChoice (ctx : ProjectContext) (fs : FS) : String :=
  let last_action := ctx.last_action
  let project_path := (ctx.project_path).getD ""
  if ctx.language_config.isNone then "LanguageSelector"
  else if !check_file_exists project_path "PLAN.md" fs then "Planner"
  else if last_action == some "Planner" then "FrontendCoder"
  else if last_action == some "FrontendCoder" then "BackendCoder"
  else if last_action == some "BackendCoder" then "TerminalAgent"
  else if !check_file_exists project_path "TEST_REPORT.md" fs then "Tester"
  else if tests_failed project_path fs then
    (if last_action == some "Debugger" then "Tester"
     else if last_action == some "Tester" then "Debugger"
     else "Tester")
  else if !check_file_exists project_path "README.md" fs then "DocumentationAgent"
  else if !check_git_initialized project_path fs then "GitAgent"
  else "FINISHED"

/-- The reasoning_map lookup of decide_next_agent, lines 98-113, including
the default of reasoning_map.get; tf is the tests_failed result used by
the conditional entry for Tester. -/
def reasoning_for (tf : Bool) : String → String
  | "LanguageSelector" => "Language configuration is missing."
  | "Planner" => "Implementation plan (PLAN.md) is missing."
  | "FrontendCoder" => "Plan complete, starting frontend development."
  | "BackendCoder" => "Frontend complete, moving to backend."
  | "TerminalAgent" => "Code complete, installing dependencies."
  | "Tester" => if !tf then "Test report is missing." else "Debugging applied, re-running tests."
  | "Debugger" => "Tests failed, triggering debugger."
  | "DocumentationAgent" => "Project documentation is missing."
  | "GitAgent" => "Initializing version control for generated project."
  | "FINISHED" => "All steps complete."
  | _ => "Proceeding to next step."

/-- AgentManager.decide_next_agent: rule table, then the anti-loop guard,
then the reasoning lookup. -/
def decide_next_agent (ctx : ProjectContext) (fs : FS) : Decision :=
  let last_action := ctx.last_action
  let project_path := (ctx.project_path).getD ""
  let next_agent := ruleChoice ctx fs
  if antiLoop last_action next_agent then
    { next_agent := "FINISHED"
      reasoning := "Loop prevented: " ++ next_agent ++ " already ran." }
  else
    { next_agent := next_agent
      reasoning := reasoning_for (tests_failed project_path fs) next_agent }

/-- A file system in which no path exists. -/
def fsNone : FS :=
  { pathExists := fun _ => false, isDir := fun _ => false, readFile := fun _ => none }

/-- A file system in which every path exists, .git is a directory, and
every file reads as a passing test report. -/
def fsAll : FS :=
  { pathExists := fun _ => true, isDir := fun _ => true
    readFile := fun _ => some "All tests passed" }

/-- A file system with every artifact present and a failing test report. -/
def fsFail : FS :=
  { pathExists := fun _ => true, isDir := fun _ => true
    readFile := fun _ => some "2 tests FAILED" }

example : ruleChoice { language_config := none } fsNone = "LanguageSelector" := by decide

example : (decide_next_agent { language_config := none } fsNone).next_agent = "LanguageSelector" := by decide

example :
    (decide_next_agent { language_config := none, last_action := some "LanguageSelector" } fsNone).next_agent
      = "FINISHED" := by decide

example : tests_failed "p" fsFail = true := by decide

example : tests_failed "p" fsAll = false := by decide

example :
    (decide_next_agent { language_config := some (), project_path := some "p", last_action := some "Debugger" } fsFail)
      = { next_agent := "Tester", reasoning := "Debugging applied, re-running tests." } := by decide

/-- The uniform result envelope returned by MultiAgentBuilder._execute_agent:
the success flag and error string of the dict the agent returned (or of the
normalized envelope for an unknown agent or a caught exception), the
truthiness of its output entry (assigned to self.language_config when the
LanguageSelector succeeds), and the working-directory file system after the
agent ran, since agents write project files. -/
structure ExecOutcome where
  success : Bool
  error : String
  outputTruthy : Bool
  fs : FS

/-- Trace oracle for the external workers: the outcome of an invocation as
a function of how many invocations ran before it, the agent name, and the
task string.  Any concrete behavior of the worker collaborators is one
such oracle. -/
structure AgentEnv where
  run : Nat → String → String → ExecOutcome

/-- The agent names that MultiAgentBuilder._execute_agent routes (its
if/elif chain, lines 197-231 of main.py).  GitAgent is absent there, so a
GitAgent decision falls into the unknown-agent envelope. -/
def known_agents : List String :=
  ["LanguageSelector", "Planner", "FrontendCoder", "BackendCoder",
   "TerminalAgent", "Tester", "Debugger", "DocumentationAgent"]

/-- The per-run configuration of MultiAgentBuilder: project identity and
goal fixed by start, plus the two integers read from the environment in
the constructor (MAX_LOOPS default 50, MAX_ERRORS default 3). -/
structure BuilderConfig where
  project_name : String := "my_project"
  project_path : String := "project/my_project"
  goal : String := ""
  max_loops : Nat := 50
  max_errors : Nat := 3

/-- The mutable fields of MultiAgentBuilder touched by _run_agent_loop:
loop_counter, error_count, language_config (its truthiness, which decides
whether the context dict gets the key), the state dict, and the current
file system.  invocations counts calls of _execute_agent that reached an
agent and is the cursor into the trace oracle. -/
structure BuilderState where
  loop_counter : Nat := 0
  error_count : Nat := 0
  language_config : Bool := false
  last_action : Option String := none
  last_error : Option String := none
  completed_steps : List String := []
  invocations : Nat := 0
  fs : FS

/-- MultiAgentBuilder._get_project_context: the context dict handed to
decide_next_agent; the language_config key is present only when
self.language_config is truthy. -/
def get_project_context (cfg : BuilderConfig) (s : BuilderState) : ProjectContext :=
  { project_name := cfg.project_name
    project_path := some cfg.project_path
    goal := cfg.goal
    last_action := s.last_action
    loop_counter := s.loop_counter
    completed_steps := s.completed_steps
    language_config := if s.language_config then some () else none }

/-- MultiAgentBuilder._execute_agent: route to the named agent and run it
(one consultation of the trace oracle; a raised exception is already
normalized into a failed outcome), recording the output of a successful
LanguageSelector as self.language_config; an unknown name yields the fixed
failure envelope without running anything. -/
def execute_agent (env : AgentEnv) (agent_name task : String) (s : BuilderState) :
    ExecOutcome × BuilderState :=
  if known_agents.contains agent_name then
    let outcome := env.run s.invocations agent_name task
    let s2 := { s with
      invocations := s.invocations + 1
      fs := outcome.fs
      language_config :=
        if agent_name == "LanguageSelector" && outcome.success then outcome.outputTruthy
        else s.language_config }
    (outcome, s2)
  else
    ({ success := false, error := "Unknown agent: " ++ agent_name
       outputTruthy := false, fs := s.fs }, s)

/-- The loop_counter increment at the top of each iteration of
_run_agent_loop (line 113 of main.py). -/
def bumpCounter (s : BuilderState) : BuilderState :=
  { s with loop_counter := s.loop_counter + 1 }

/-- The decision taken in one iteration of _run_agent_loop: context built
after the counter increment, then decide_next_agent. -/
def stepDecision (cfg : BuilderConfig) (s : BuilderState) : Decision :=
  decide_next_agent (get_project_context cfg (bumpCounter s)) (bumpCounter s).fs

/-- The scheduled worker execution of one iteration: the decided agent run
with task = self.goal. -/
def schedExec (env : AgentEnv) (cfg : BuilderConfig) (s : BuilderState) :
    ExecOutcome × BuilderState :=
  execute_agent env (stepDecision cfg s).next_agent cfg.goal (bumpCounter s)

/-- The state after a scheduled worker failure is recorded: error_count
incremented and last_error set (lines 146-147 of main.py). -/
def afterFail (env : AgentEnv) (cfg : BuilderConfig) (s : BuilderState) : BuilderState :=
  { (schedExec env cfg s).2 with
    error_count := (schedExec env cfg s).2.error_count + 1
    last_error := some (schedExec env cfg s).1.error }

/-- The out-of-band Debugger invocation of strike 1 and 2, with its task
derived from the failing agent and error (lines 154-155 of main.py). -/
def recoveryExec (env : AgentEnv) (cfg : BuilderConfig) (s : BuilderState) :
    ExecOutcome × BuilderState :=
  execute_agent env "Debugger"
    ("Fix error from " ++ (stepDecision cfg s).next_agent ++ ": " ++ (schedExec env cfg s).1.error)
    (afterFail env cfg s)

/-- The three ways _run_agent_loop stops: the FINISHED break, the strike-3
break, and the while condition becoming false. -/
inductive Terminal where
  | finished
  | aborted
  | exhausted
deriving Repr, DecidableEq

/-- Result of one iteration of the while body: continue with a new state,
or stop with a terminal outcome. -/
inductive StepOut where
  | next (s : BuilderState)
  | stop (s : BuilderState) (t : Terminal)

/-- The state carried by a StepOut. -/
def stepState : StepOut → BuilderState
  | .next s => s
  | .stop s _ => s

/-- One iteration of the while body of _run_agent_loop, lines 113-172 of
main.py: increment the counter, decide, break on FINISHED, run the
scheduled agent; on success record it and reset error_count; on failure
increment error_count, and on strike 1 or 2 run the out-of-band Debugger
(unless the scheduled agent was the Debugger), resetting error_count only
if that Debugger run succeeds; on strike 3 break. -/
def loopStep (env : AgentEnv) (cfg : BuilderConfig) (s : BuilderState) : StepOut :=
  if (stepDecision cfg s).next_agent == "FINISHED" then
    .stop (bumpCounter s) .finished
  else if (schedExec env cfg s).1.success then
    .next { (schedExec env cfg s).2 with
      last_action := some (stepDecision cfg s).next_agent
      completed_steps := (schedExec env cfg s).2.completed_steps ++ [(stepDecision cfg s).next_agent]
      error_count := 0 }
  else if (afterFail env cfg s).error_count == 1 || (afterFail env cfg s).error_count == 2 then
    if !((stepDecision cfg s).next_agent == "Debugger") then
      if (recoveryExec env cfg s).1.success then
        .next { (recoveryExec env cfg s).2 with
          error_count := 0
          last_action := some "Debugger" }
      else
        .next (recoveryExec env cfg s).2
    else
      .next (afterFail env cfg s)
  else if 3 ≤ (afterFail env cfg s).error_count then
    .stop (afterFail env cfg s) .aborted
  else
    .next (afterFail env cfg s)

/-- The while loop of _run_agent_loop, driven by fuel: the loop guard
loop_counter < max_loops is equivalent to positive fuel when fuel equals
max_loops - loop_counter, since every iteration increments loop_counter by
exactly one; fuel 0 is the guard failing, reported as exhaustion. -/
def loopGo (env : AgentEnv) (cfg : BuilderConfig) : Nat → BuilderState → BuilderState × Terminal
  | 0, s => (s, Terminal.exhausted)
  | fuel + 1, s =>
    match loopStep env cfg s with
    | .next s2 => loopGo env cfg fuel s2
    | .stop s2 t => (s2, t)

/-- MultiAgentBuilder._run_agent_loop from a given state: run the while
loop to its terminal outcome. -/
def run_agent_loop (env : AgentEnv) (cfg : BuilderConfig) (s : BuilderState) :
    BuilderState × Terminal :=
  loopGo env cfg (cfg.max_loops - s.loop_counter) s

/-- The emptiness test of main in main.py, line 285: not user_prompt or
not user_prompt.strip(); the stripped string is empty exactly when every
character is whitespace. -/
def pyStrBlank (s : String) : Bool :=
  s == "" || s.toList.all Char.isWhitespace

/-- The process-level result of main in main.py: exit code 1 on a blank
prompt, and otherwise a normal exit (code 0) after running the loop, whose
outcome is discarded because start and _run_agent_loop return None and
main does not inspect the builder beyond printing the project path. -/
def mainExitCode (user_prompt : String) (env : AgentEnv) (cfg : BuilderConfig)
    (s : BuilderState) : Nat :=
  if pyStrBlank user_prompt then 1
  else
    let _ := run_agent_loop env cfg s
    0

/-- Trace oracle under which every worker invocation fails. -/
def envAllFail : AgentEnv :=
  { run := fun _ _ _ => { success := false, error := "boom", outputTruthy := false, fs := fsNone } }

/-- Trace oracle under which every worker invocation succeeds with a
truthy output and leaves all artifacts present with a passing report. -/
def envFinish : AgentEnv :=
  { run := fun _ _ _ => { success := true, error := "", outputTruthy := true, fs := fsAll } }

/-- Trace oracle under which the Debugger always succeeds but every other
worker fails and no artifact ever appears: the loop makes no progress yet
the error counter is reset every iteration. -/
def envStall : AgentEnv :=
  { run := fun _ agent_name _ =>
      if agent_name == "Debugger" then
        { success := true, error := "", outputTruthy := false, fs := fsNone }
      else
        { success := false, error := "boom", outputTruthy := false, fs := fsNone } }

/-- The builder state right after __init__ and start: zero counters, empty
history, no language_config, project directory just created and empty. -/
def st0 : BuilderState := { fs := fsNone }

/-- Default configuration: MAX_LOOPS 50 and MAX_ERRORS 3. -/
def cfg0 : BuilderConfig := { goal := "Build app" }

/-- Default configuration but with only three loop iterations allowed. -/
def cfgSmall : BuilderConfig := { goal := "Build app", max_loops := 3 }

/-- Default configuration but with MAX_ERRORS set to 5. -/
def cfgME5 : BuilderConfig := { goal := "Build app", max_errors := 5 }

example :
    (run_agent_loop envAllFail cfg0 st0).2 = Terminal.aborted ∧
    (run_agent_loop envAllFail cfg0 st0).1.loop_counter = 3 ∧
    (run_agent_loop envAllFail cfg0 st0).1.error_count = 3 ∧
    (run_agent_loop envAllFail cfg0 st0).1.invocations = 5 ∧
    (run_agent_loop envAllFail cfg0 st0).1.completed_steps = ([] : List String) := by decide

example : (run_agent_loop envFinish cfgSmall st0).2 = Terminal.finished := by decide

example : (run_agent_loop envStall cfgSmall st0).2 = Terminal.exhausted := by decide

example : (run_agent_loop envStall cfgSmall st0).1.error_count = 0 := by decide

/-- The rule table only ever selects one of the ten fixed names. -/
theorem ruleChoice_mem (ctx : ProjectContext) (fs : FS) :
    ruleChoice ctx fs ∈
      ["LanguageSelector", "Planner", "FrontendCoder", "BackendCoder", "TerminalAgent",
       "Tester", "Debugger", "DocumentationAgent", "GitAgent", "FINISHED"] := by
  simp only [ruleChoice]
  repeat' split
  all_goals decide

/-- The rule table never selects the empty string, so a selection equal to
last_action always makes last_action truthy for the anti-loop test. -/
theorem ruleChoice_ne_empty (ctx : ProjectContext) (fs : FS) : ruleChoice ctx fs ≠ "" := by
  have h := ruleChoice_mem ctx fs
  intro he
  rw [he] at h
  revert h
  decide

/-- Evaluation of decide_next_agent once the rule table choice is known:
the anti-loop guard downgrades the choice to FINISHED exactly when it
equals last_action. -/
theorem decide_next_agent_eval (ctx : ProjectContext) (fs : FS) (w : String)
    (hw : ruleChoice ctx fs = w) (hne : w ≠ "") (hnf : w ≠ "FINISHED") :
    (decide_next_agent ctx fs).next_agent =
      if ctx.last_action = some w then "FINISHED" else w := by
  simp only [decide_next_agent, hw]
  cases hla : ctx.last_action with
  | none => simp [antiLoop]
  | some a =>
    by_cases ha : a = w
    · subst ha
      simp [antiLoop, hne, hnf]
    · simp [antiLoop, ha, Ne.symm ha]

/-- C1: the claim as stated is refuted here.  At the concrete context with
no language_config and last_action equal to LanguageSelector, the rule
table selects LanguageSelector but the anti-loop guard, which runs after
every rule, overrides the decision to FINISHED, so decide_next_agent does
not return LanguageSelector for every such context. -/
theorem c1_counterexample :
    ({ language_config := none, last_action := some "LanguageSelector" } : ProjectContext).language_config
        = none ∧
      (decide_next_agent { language_config := none, last_action := some "LanguageSelector" } fsNone).next_agent
        = "FINISHED" ∧
      (decide_next_agent { language_config := none, last_action := some "LanguageSelector" } fsNone).next_agent
        ≠ "LanguageSelector" := by
  decide

/-- C1 (amended): for every context with no language_config recorded and
every file system, decide_next_agent returns LanguageSelector, regardless
of every other field, except that when last_action is LanguageSelector the
anti-loop guard overrides the decision to FINISHED. -/
theorem c1_language_selector (ctx : ProjectContext) (fs : FS)
    (h : ctx.language_config = none) :
    (decide_next_agent ctx fs).next_agent =
      if ctx.last_action = some "LanguageSelector" then "FINISHED" else "LanguageSelector" := by
  have hrc : ruleChoice ctx fs = "LanguageSelector" := by
    simp [ruleChoice, h]
  exact decide_next_agent_eval ctx fs _ hrc (by decide) (by decide)

/-- C1 witness: the amended theorem applied at a concrete context whose
last_action is Tester. -/
theorem c1_witness :
    (decide_next_agent { language_config := none, last_action := some "Tester" } fsNone).next_agent
      = "LanguageSelector" := by
  have h := c1_language_selector { language_config := none, last_action := some "Tester" } fsNone rfl
  rw [h, if_neg (by decide)]

/-- C2: whenever the ordered rule table selects a worker equal to the
context last_action and that worker is not FINISHED, the anti-loop guard,
applied after rule selection, overrides the decision to FINISHED. -/
theorem c2_anti_loop_guard (ctx : ProjectContext) (fs : FS)
    (h1 : ctx.last_action = some (ruleChoice ctx fs))
    (h2 : ruleChoice ctx fs ≠ "FINISHED") :
    (decide_next_agent ctx fs).next_agent = "FINISHED" := by
  have h := decide_next_agent_eval ctx fs (ruleChoice ctx fs) rfl (ruleChoice_ne_empty ctx fs) h2
  rw [h, if_pos h1]

/-- C2 witness: at a concrete context the rule table picks Planner, equal
to last_action, and the final decision is FINISHED. -/
theorem c2_witness :
    ruleChoice { language_config := some (), last_action := some "Planner" } fsNone = "Planner" ∧
      (decide_next_agent { language_config := some (), last_action := some "Planner" } fsNone).next_agent
        = "FINISHED" := by
  refine ⟨by decide, ?_⟩
  exact c2_anti_loop_guard { language_config := some (), last_action := some "Planner" } fsNone
    (by decide) (by decide)

/-- ASCII lowercase of one character (claim-side helper). -/
def lowerChar (c : Char) : Char :=
  if 65 ≤ c.toNat ∧ c.toNat ≤ 90 then Char.ofNat (c.toNat + 32) else c

/-- Follows the words of claim C4, not the source: a case-insensitive
substring scan of the report for the fixed token set. -/
def claimedTestsFailedCI (report : String) : Bool :=
  failure_keywords.any (fun keyword =>
    subScan (keyword.toList.map lowerChar) (report.toList.map lowerChar))

/-- File system in which TEST_REPORT.md exists and reads as the lowercase
word error. -/
def fsLowerError : FS :=
  { pathExists := fun f => f == "TEST_REPORT.md", isDir := fun _ => false
    readFile := fun f => if f == "TEST_REPORT.md" then some "error" else none }

/-- C4: the claim as stated is refuted here.  A report whose text is the
lowercase word error matches the token set case-insensitively, yet
_tests_failed returns False on it, because the source scans for the exact
keywords case-sensitively. -/
theorem c4_counterexample :
    claimedTestsFailedCI "error" = true ∧
      fsLowerError.readFile "TEST_REPORT.md" = some "error" ∧
      tests_failed "p" fsLowerError = false := by
  decide

/-- C4 (amended): when the report exists and is readable, the tests-failed
predicate is true if and only if the report text contains one of FAIL,
FAILED, Error, ERROR, Exception as an exact, case-sensitive substring. -/
theorem c4_keyword_scan (project_path : String) (fs : FS) (content : String)
    (hpp : project_path ≠ "")
    (hex : fs.pathExists "TEST_REPORT.md" = true)
    (hrd : fs.readFile "TEST_REPORT.md" = some content) :
    tests_failed project_path fs =
      failure_keywords.any (fun keyword => pyIn keyword content) := by
  simp [tests_failed, check_file_exists, read_file, hpp, hex, hrd]

/-- C4 witness: the amended theorem applied at a concrete failing report. -/
theorem c4_witness :
    tests_failed "p" fsFail = failure_keywords.any (fun keyword => pyIn keyword "2 tests FAILED") :=
  c4_keyword_scan "p" fsFail "2 tests FAILED" (by decide) rfl rfl

/-- C6: when rules 1 to 6 do not fire and the existing test report
indicates failure, rule 7 picks Tester after a Debugger run (with the
re-running reasoning string), Debugger after a Tester run, and Tester by
default. -/
theorem c6_rule7_sub_machine (ctx : ProjectContext) (fs : FS)
    (hcfg : ctx.language_config.isSome = true)
    (hplan : check_file_exists (ctx.project_path.getD "") "PLAN.md" fs = true)
    (h3 : ctx.last_action ≠ some "Planner")
    (h4 : ctx.last_action ≠ some "FrontendCoder")
    (h5 : ctx.last_action ≠ some "BackendCoder")
    (hrep : check_file_exists (ctx.project_path.getD "") "TEST_REPORT.md" fs = true)
    (htf : tests_failed (ctx.project_path.getD "") fs = true) :
    ((decide_next_agent ctx fs).next_agent =
        if ctx.last_action = some "Debugger" then "Tester"
        else if ctx.last_action = some "Tester" then "Debugger"
        else "Tester") ∧
      (ctx.last_action = some "Debugger" →
        (decide_next_agent ctx fs).reasoning = "Debugging applied, re-running tests.") := by
  obtain ⟨u, hu⟩ := Option.isSome_iff_exists.mp hcfg
  have hrc : ruleChoice ctx fs =
      (if ctx.last_action = some "Debugger" then "Tester"
       else if ctx.last_action = some "Tester" then "Debugger"
       else "Tester") := by
    simp [ruleChoice, hu, hplan, hrep, htf, h3, h4, h5]
  constructor
  · by_cases hd : ctx.last_action = some "Debugger"
    · rw [if_pos hd] at hrc ⊢
      rw [decide_next_agent_eval ctx fs "Tester" hrc (by decide) (by decide),
        if_neg (by simp [hd])]
    · rw [if_neg hd] at hrc ⊢
      by_cases ht : ctx.last_action = some "Tester"
      · rw [if_pos ht] at hrc ⊢
        rw [decide_next_agent_eval ctx fs "Debugger" hrc (by decide) (by decide),
          if_neg (by simp [ht])]
      · rw [if_neg ht] at hrc ⊢
        rw [decide_next_agent_eval ctx fs "Tester" hrc (by decide) (by decide), if_neg ht]
  · intro hd
    simp [decide_next_agent, hrc, hd, antiLoop, reasoning_for, htf]

/-- C6 witness: the theorem applied at a concrete context after a Debugger
run with a failing report. -/
theorem c6_witness :
    (decide_next_agent { language_config := some (), project_path := some "p", last_action := some "Debugger" } fsFail).next_agent
        = "Tester" ∧
      (decide_next_agent { language_config := some (), project_path := some "p", last_action := some "Debugger" } fsFail).reasoning
        = "Debugging applied, re-running tests." := by
  have h := c6_rule7_sub_machine
    { language_config := some (), project_path := some "p", last_action := some "Debugger" } fsFail
    rfl (by decide) (by decide) (by decide) (by decide) (by decide) (by decide)
  exact ⟨by rw [h.1, if_pos rfl], h.2 rfl⟩

/-- C9: when TEST_REPORT.md exists but the raw read of its content fails,
the tests-failed predicate returns False, the same as for a passing
report.  In the source this holds twice over: read_file in file_ops.py
converts any read exception into the empty string, which matches no
keyword, and the except branch of _tests_failed itself returns False. -/
theorem c9_unreadable_report_passes (project_path : String) (fs : FS)
    (hex : fs.pathExists "TEST_REPORT.md" = true)
    (hraise : fs.readFile "TEST_REPORT.md" = none) :
    tests_failed project_path fs = false := by
  simp only [tests_failed, read_file, hraise]
  split
  · rfl
  · decide

/-- File system in which every path exists but every read fails. -/
def fsHidden : FS :=
  { pathExists := fun _ => true, isDir := fun _ => false, readFile := fun _ => none }

/-- C9 witness: the theorem applied at a concrete file system whose report
exists but cannot be read. -/
theorem c9_witness : tests_failed "p" fsHidden = false :=
  c9_unreadable_report_passes "p" fsHidden rfl rfl

/-- C10: with an empty (or absent) project_path but language_config
present, every artifact-presence check and the git check return False
whatever the file system holds, so the decision is Planner, except that
the anti-loop guard turns it into FINISHED when last_action is Planner; in
particular it is never Tester, DocumentationAgent, or GitAgent. -/
theorem c10_empty_path_planner (ctx : ProjectContext) (fs : FS)
    (hpp : ctx.project_path.getD "" = "")
    (hcfg : ctx.language_config.isSome = true) :
    (∀ filename, check_file_exists (ctx.project_path.getD "") filename fs = false) ∧
      check_git_initialized (ctx.project_path.getD "") fs = false ∧
      (decide_next_agent ctx fs).next_agent =
        (if ctx.last_action = some "Planner" then "FINISHED" else "Planner") := by
  have hchk : ∀ filename, check_file_exists (ctx.project_path.getD "") filename fs = false := by
    intro filename
    simp [check_file_exists, hpp]
  have hgit : check_git_initialized (ctx.project_path.getD "") fs = false := by
    simp [check_git_initialized, hpp]
  obtain ⟨u, hu⟩ := Option.isSome_iff_exists.mp hcfg
  have hrc : ruleChoice ctx fs = "Planner" := by
    simp [ruleChoice, hu, hchk]
  exact ⟨hchk, hgit, decide_next_agent_eval ctx fs _ hrc (by decide) (by decide)⟩

/-- C10 witness: the theorem applied at a concrete context with empty
project_path against a file system where every artifact exists. -/
theorem c10_witness :
    check_file_exists "" "PLAN.md" fsAll = false ∧
      (decide_next_agent { language_config := some (), project_path := some "", last_action := some "Planner" } fsAll).next_agent
        = "FINISHED" := by
  have h := c10_empty_path_planner
    { language_config := some (), project_path := some "", last_action := some "Planner" } fsAll rfl rfl
  exact ⟨h.1 "PLAN.md", by rw [h.2.2, if_pos rfl]⟩

/-- Running an agent never changes error_count: only the loop body does. -/
theorem execute_agent_error_count (env : AgentEnv) (agent_name task : String) (s : BuilderState) :
    (execute_agent env agent_name task s).2.error_count = s.error_count := by
  simp only [execute_agent]
  split <;> rfl

/-- Running an agent never changes completed_steps: only the loop body
appends to it. -/
theorem execute_agent_completed_steps (env : AgentEnv) (agent_name task : String) (s : BuilderState) :
    (execute_agent env agent_name task s).2.completed_steps = s.completed_steps := by
  simp only [execute_agent]
  split <;> rfl

/-- The scheduled execution step leaves error_count unchanged. -/
theorem schedExec_error_count (env : AgentEnv) (cfg : BuilderConfig) (s : BuilderState) :
    (schedExec env cfg s).2.error_count = s.error_count := by
  simp only [schedExec, execute_agent_error_count, bumpCounter]

/-- The scheduled execution step leaves completed_steps unchanged. -/
theorem schedExec_completed_steps (env : AgentEnv) (cfg : BuilderConfig) (s : BuilderState) :
    (schedExec env cfg s).2.completed_steps = s.completed_steps := by
  simp only [schedExec, execute_agent_completed_steps, bumpCounter]

/-- Recording a scheduled failure increments error_count by exactly 1. -/
theorem afterFail_error_count (env : AgentEnv) (cfg : BuilderConfig) (s : BuilderState) :
    (afterFail env cfg s).error_count = s.error_count + 1 := by
  simp only [afterFail, schedExec_error_count]

/-- Recording a scheduled failure leaves completed_steps unchanged. -/
theorem afterFail_completed_steps (env : AgentEnv) (cfg : BuilderConfig) (s : BuilderState) :
    (afterFail env cfg s).completed_steps = s.completed_steps := by
  simp only [afterFail, schedExec_completed_steps]

/-- The out-of-band Debugger invocation leaves the already incremented
error_count unchanged: the increment for its own failure is nowhere in the
loop body. -/
theorem recoveryExec_error_count (env : AgentEnv) (cfg : BuilderConfig) (s : BuilderState) :
    (recoveryExec env cfg s).2.error_count = s.error_count + 1 := by
  simp only [recoveryExec, execute_agent_error_count, afterFail_error_count]

/-- The out-of-band Debugger invocation never touches completed_steps. -/
theorem recoveryExec_completed_steps (env : AgentEnv) (cfg : BuilderConfig) (s : BuilderState) :
    (recoveryExec env cfg s).2.completed_steps = s.completed_steps := by
  simp only [recoveryExec, execute_agent_completed_steps, afterFail_completed_steps]

/-- C3: the claim as stated is refuted here.  One iteration of the loop
from the initial state under the all-failing oracle performs two worker
invocations, the scheduled LanguageSelector and the out-of-band Debugger,
and both fail (the oracle fails every invocation, as the two recorded
outcomes below show), yet error_count ends at 1, not 2: the out-of-band
recovery worker failure is only logged and does not increment the
counter. -/
theorem c3_counterexample :
    (envAllFail.run 0 "LanguageSelector" "Build app").success = false ∧
      (envAllFail.run 1 "Debugger" "Fix error from LanguageSelector: boom").success = false ∧
      (stepState (loopStep envAllFail cfg0 st0)).invocations = 2 ∧
      (stepState (loopStep envAllFail cfg0 st0)).error_count = 1 := by
  decide

/-- C3 (amended): across one iteration of the loop body, error_count
becomes 0 on a scheduled worker success and also when the out-of-band
Debugger invoked on strike 1 or 2 succeeds; it becomes exactly
error_count + 1 on a scheduled worker failure, and stays at that value
when the out-of-band Debugger itself fails (that failure adds no further
increment); a FINISHED iteration leaves it unchanged. -/
theorem c3_error_count_dynamics (env : AgentEnv) (cfg : BuilderConfig) (s : BuilderState) :
    (stepState (loopStep env cfg s)).error_count =
      if (stepDecision cfg s).next_agent == "FINISHED" then s.error_count
      else if (schedExec env cfg s).1.success then 0
      else if (s.error_count + 1 == 1 || s.error_count + 1 == 2)
          && !((stepDecision cfg s).next_agent == "Debugger") then
        (if (recoveryExec env cfg s).1.success then 0 else s.error_count + 1)
      else s.error_count + 1 := by
  have haf := afterFail_error_count env cfg s
  have hre := recoveryExec_error_count env cfg s
  by_cases h1 : (stepDecision cfg s).next_agent = "FINISHED"
  · simp [loopStep, stepState, bumpCounter, h1]
  · by_cases h2 : (schedExec env cfg s).1.success = true
    · simp [loopStep, stepState, h1, h2]
    · by_cases h3 : s.error_count = 0 ∨ s.error_count = 1
      · by_cases h4 : (stepDecision cfg s).next_agent = "Debugger"
        · simp [loopStep, stepState, h1, h2, h3, h4, haf]
        · by_cases h5 : (recoveryExec env cfg s).1.success = true
          · simp [loopStep, stepState, h1, h2, h3, h4, h5, haf]
          · simp [loopStep, stepState, h1, h2, h3, h4, h5, haf, hre]
      · by_cases h6 : 2 ≤ s.error_count
        · simp [loopStep, stepState, h1, h2, h3, h6, haf]
        · simp [loopStep, stepState, h1, h2, h3, h6, haf]

/-- C5: the claim as stated is refuted here.  Under the all-failing
oracle the run exits by escalation abort with loop_counter 3 and five
worker invocations actually executed (three scheduled, two attempted
out-of-band recoveries), yet completed_steps is empty: its length equals
neither the step counter nor the number of executed invocations. -/
theorem c5_counterexample :
    (run_agent_loop envAllFail cfg0 st0).2 = Terminal.aborted ∧
      (run_agent_loop envAllFail cfg0 st0).1.loop_counter = 3 ∧
      (run_agent_loop envAllFail cfg0 st0).1.invocations = 5 ∧
      (run_agent_loop envAllFail cfg0 st0).1.completed_steps = ([] : List String) ∧
      (run_agent_loop envAllFail cfg0 st0).1.completed_steps.length ≠
        (run_agent_loop envAllFail cfg0 st0).1.loop_counter := by
  decide

/-- C5 (amended): across one iteration of the loop body, completed_steps
grows by exactly the scheduled worker name on a scheduled success and is
unchanged otherwise — on a scheduled failure, on an out-of-band Debugger
invocation whether it succeeds or fails, and on the FINISHED iteration —
so at loop exit its length is the number of successful scheduled
invocations, not the step counter. -/
theorem c5_history_records_successes (env : AgentEnv) (cfg : BuilderConfig) (s : BuilderState) :
    (stepState (loopStep env cfg s)).completed_steps =
      if (stepDecision cfg s).next_agent == "FINISHED" then s.completed_steps
      else if (schedExec env cfg s).1.success then
        s.completed_steps ++ [(stepDecision cfg s).next_agent]
      else s.completed_steps := by
  have haf := afterFail_error_count env cfg s
  have hafc := afterFail_completed_steps env cfg s
  have hrec := recoveryExec_completed_steps env cfg s
  have hsc := schedExec_completed_steps env cfg s
  by_cases h1 : (stepDecision cfg s).next_agent = "FINISHED"
  · simp [loopStep, stepState, bumpCounter, h1]
  · by_cases h2 : (schedExec env cfg s).1.success = true
    · simp [loopStep, stepState, h1, h2, hsc]
    · by_cases h3 : s.error_count = 0 ∨ s.error_count = 1
      · by_cases h4 : (stepDecision cfg s).next_agent = "Debugger"
        · simp [loopStep, stepState, h1, h2, h3, h4, haf, hafc]
        · by_cases h5 : (recoveryExec env cfg s).1.success = true
          · simp [loopStep, stepState, h1, h2, h3, h4, h5, haf, hrec]
          · simp [loopStep, stepState, h1, h2, h3, h4, h5, haf, hrec]
      · by_cases h6 : 2 ≤ s.error_count
        · simp [loopStep, stepState, h1, h2, h3, h6, haf, hafc]
        · simp [loopStep, stepState, h1, h2, h3, h6, haf, hafc]

/-- C7: the claim as stated is refuted here.  All three terminal outcomes
are reachable (three concrete runs below end finished, exhausted, and
aborted respectively), but main yields the identical process-level result
0 for all three: _run_agent_loop and start return None, so the caller of
the run entry point cannot distinguish run exhaustion from a finish or an
abort by any result or exit signaling. -/
theorem c7_counterexample :
    (run_agent_loop envFinish cfgSmall st0).2 = Terminal.finished ∧
      (run_agent_loop envStall cfgSmall st0).2 = Terminal.exhausted ∧
      (run_agent_loop envAllFail cfgSmall st0).2 = Terminal.aborted ∧
      mainExitCode "Build app" envFinish cfgSmall st0 = 0 ∧
      mainExitCode "Build app" envStall cfgSmall st0 = 0 ∧
      mainExitCode "Build app" envAllFail cfgSmall st0 = 0 := by
  decide

/-- C7 (amended): the loop distinguishes the three terminal outcomes
internally (and logs them distinctly), but the process-level result of
main is 0 for every non-blank prompt whatever the environment,
configuration, and state, so the outcomes are not distinguishable by the
caller. -/
theorem c7_exit_code_uniform (user_prompt : String) (env : AgentEnv) (cfg : BuilderConfig)
    (s : BuilderState) (h : pyStrBlank user_prompt = false) :
    mainExitCode user_prompt env cfg s = 0 := by
  simp [mainExitCode, h]

/-- C7 witness: the amended theorem applied to a concrete prompt and the
all-failing environment. -/
theorem c7_witness : mainExitCode "Build app" envAllFail cfg0 st0 = 0 :=
  c7_exit_code_uniform "Build app" envAllFail cfg0 st0 (by decide)

/-- One loop iteration is unaffected by the configured max_errors: the
loop body compares error_count against the literals 1, 2 and 3 only. -/
theorem loopStep_max_errors (env : AgentEnv) (cfg : BuilderConfig) (me : Nat) (s : BuilderState) :
    loopStep env { cfg with max_errors := me } s = loopStep env cfg s := rfl

/-- The whole loop is unaffected by the configured max_errors. -/
theorem loopGo_max_errors (env : AgentEnv) (cfg : BuilderConfig) (me : Nat) (fuel : Nat) :
    ∀ s : BuilderState, loopGo env { cfg with max_errors := me } fuel s = loopGo env cfg fuel s := by
  induction fuel with
  | zero => intro s; rfl
  | succ n ih =>
    intro s
    simp only [loopGo, loopStep_max_errors]
    cases loopStep env cfg s with
    | next s2 => exact ih s2
    | stop s2 t => rfl

/-- C8: the MAX_ERRORS configuration is read into self.max_errors with
default 3 but the loop never consults it: the run behaves identically for
every configured value (first conjunct), and concretely, with max_errors
set to 5 and every worker failing, the run still aborts once error_count
reaches the hardcoded 3, after 3 iterations — the configured threshold
does not change when the run aborts, refuting the claim. -/
theorem c8_threshold_hardcoded :
    (∀ (env : AgentEnv) (cfg : BuilderConfig) (me : Nat) (s : BuilderState),
        run_agent_loop env { cfg with max_errors := me } s = run_agent_loop env cfg s) ∧
      cfgME5.max_errors = 5 ∧
      (run_agent_loop envAllFail cfgME5 st0).2 = Terminal.aborted ∧
      (run_agent_loop envAllFail cfgME5 st0).1.error_count = 3 ∧
      (run_agent_loop envAllFail cfgME5 st0).1.loop_counter = 3 ∧
      (run_agent_loop envAllFail cfgME5 st0).2 = (run_agent_loop envAllFail cfg0 st0).2 := by
  refine ⟨fun env cfg me s => ?_, by decide, by decide, by decide, by decide, by decide⟩
  unfold run_agent_loop
  exact loopGo_max_errors env cfg me (cfg.max_loops - s.loop_counter) s

end AppBuilder
